import Mathlib

/-!
Verification development for the blossom chat-command core.

The Python sources under `api/views/slack_helpers.py`,
`api/slack/commands/info.py`, `blossom/api/slack/commands/watchstatus.py`
and the tests under `api/tests/submissions/` are shallowly embedded below.
Python strings are Lean `String`s, Python dicts/JSON payloads are `PyVal`,
fallible code returns `Except PyExn`, machine time is `Int`/`Rat`.
External collaborators (the i18n string table, the serializers
of the record store, `parse_user`, the Summary report) are modelled from the spec
and marked as such in their doc comments.
-/

/-- Python exception kinds that the embedded code can raise. -/
inductive PyExn where
  | typeError
  | keyError
  | valueError
  | indexError
  | attributeError
  | doesNotExist
deriving DecidableEq, Repr

/-- Python/JSON values as they appear in inbound webhook payloads. -/
inductive PyVal where
  | str (s : String)
  | int (n : Int)
  | bool (b : Bool)
  | list (items : List PyVal)
  | dict (entries : List (String × PyVal))
  | none
deriving BEq, Repr

/-- A top-level JSON object body, as Django hands it to the view. -/
abbrev PyDict := List (String × PyVal)

/-- A channel value as passed around by the Python code: whatever
`event.get("channel")` produced, possibly `None`. -/
abbrev Chan := Option PyVal

/-- Embeds Python `v[k]` subscripting on a value. -/
def pyItem (v : PyVal) (k : String) : Except PyExn PyVal :=
  match v with
  | .dict es =>
    match es.lookup k with
    | some x => Except.ok x
    | Option.none => Except.error PyExn.keyError
  | _ => Except.error PyExn.typeError

/-- Embeds Python `v[i]` indexing on a list value. -/
def pyIdx (v : PyVal) (i : Nat) : Except PyExn PyVal :=
  match v with
  | .list xs =>
    match xs.get? i with
    | some x => Except.ok x
    | Option.none => Except.error PyExn.indexError
  | _ => Except.error PyExn.typeError

/-- Embeds Python `v.get(k)`: only dicts have `.get`. -/
def pyGetAttrGet (v : PyVal) (k : String) : Except PyExn (Option PyVal) :=
  match v with
  | .dict es => Except.ok (es.lookup k)
  | _ => Except.error PyExn.attributeError

/-- Embeds Python `d[k]` on the top-level payload dict. -/
def pyLookupE (d : PyDict) (k : String) : Except PyExn PyVal :=
  match d.lookup k with
  | some x => Except.ok x
  | Option.none => Except.error PyExn.keyError

/-- Python truthiness of an optional value (`None` and empty containers are falsy). -/
def pyFalsy : Option PyVal → Bool
  | Option.none => true
  | some PyVal.none => true
  | some (PyVal.str s) => s == ("")
  | some (PyVal.int n) => n == 0
  | some (PyVal.bool b) => !b
  | some (PyVal.list l) => l.isEmpty
  | some (PyVal.dict d) => d.isEmpty

/-- Embeds Python `needle in hay` substring containment on strings. -/
def strContains (hay needle : String) : Bool :=
  hay.toList.tails.any (fun t => needle.toList.isPrefixOf t)

/-- Helper for `pySplit`: walks the characters accumulating the current token. -/
def pySplitAux : List Char → List Char → List String
  | [], acc => if acc.isEmpty then [] else [String.mk acc.reverse]
  | c :: rest, acc =>
    if c.isWhitespace then
      if acc.isEmpty then pySplitAux rest []
      else String.mk acc.reverse :: pySplitAux rest []
    else pySplitAux rest (c :: acc)

/-- Embeds Python `str.split()` with no argument: split on whitespace runs,
dropping empty tokens. -/
def pySplit (s : String) : List String :=
  pySplitAux s.toList []

/-- Numeric value of a list of decimal digit characters. -/
def digitsToNat (ds : List Char) : Nat :=
  ds.foldl (fun a c => a * 10 + (c.toNat - 48)) 0

/-- Embeds Python `int(s)` on plain decimal literals: an optional sign
followed by at least one digit; anything else raises `ValueError`
(signalled here by `Option.none`). -/
def pyIntParse (s : String) : Option Int :=
  match s.toList with
  | '-' :: ds =>
    if ds.isEmpty || !ds.all Char.isDigit then Option.none
    else some (-(digitsToNat ds : Int))
  | ds =>
    if ds.isEmpty || !ds.all Char.isDigit then Option.none
    else some (digitsToNat ds : Int)

/-- Embeds Python `"{:<w}".format(s)`: left-justify with spaces, no truncation. -/
def ljust (w : Nat) (s : String) : String :=
  s ++ String.mk (List.replicate (w - s.length) (' '))

/-- Embeds Python `str.lower()` (ASCII, as the handled commands use). -/
def pyLower (s : String) : String :=
  String.mk (s.toList.map Char.toLower)

/-- Embeds Python `str.upper()` (ASCII). -/
def pyUpper (s : String) : String :=
  String.mk (s.toList.map Char.toUpper)

/-- Embeds Python `str.startswith(pre)`. -/
def pyStartsWith (s pre : String) : Bool :=
  pre.toList.isPrefixOf s.toList

/-- Helper for `pySplitOnChar`: accumulates the current (reversed) token. -/
def splitOnCharAux (sep : Char) : List Char → List Char → List String
  | [], acc => [String.mk acc.reverse]
  | c :: rest, acc =>
    if c == sep then String.mk acc.reverse :: splitOnCharAux sep rest []
    else splitOnCharAux sep rest (c :: acc)

/-- Embeds Python `str.split(sep)` for a one-character separator: keeps
empty tokens, and the empty string splits to `[""]`. -/
def pySplitOnChar (sep : Char) (s : String) : List String :=
  splitOnCharAux sep s.toList []

/-- Embeds Python `sep.join(parts)`. -/
def joinSep (sep : String) : List String → String
  | [] => ("")
  | [x] => x
  | x :: rest => x ++ sep ++ joinSep sep rest

/-!
The `SLACK_TEXT_EXTRACTOR` regular expression from `slack_helpers.py`:

  `<(?:https?://)?[\w-]+(?:\.[\w-]+)+\.?(?::\d+)?(?:/\S*)?\|([^>]+)>`

is embedded as a hand-rolled matcher.  Every quantifier in the pattern is
deterministic under backtracking except the greedy `\S*` of the optional
path (resolved by `pathSearch`, which tries the rightmost viable `|`
first, matching the greedy preference) and the optional scheme
(`matchAt` falls back to the schemeless alternative on failure).
`\w` is modelled as ASCII alphanumeric or underscore.
-/

/-- Character class `[\w-]` of the link pattern. -/
def isWordH (c : Char) : Bool :=
  c.isAlphanum || c == ('_') || c == ('-')

/-- Matches `([^>]+)>`, returning the captured label and the rest. -/
def labelMatch (l : List Char) : Option (List Char × List Char) :=
  let lab := l.takeWhile (fun c => c != ('>'))
  if lab.isEmpty then Option.none
  else
    match l.dropWhile (fun c => c != ('>')) with
    | '>' :: r => some (lab, r)
    | _ => Option.none

/-- Matches the greedy `\S*` of `(?:/\S*)?` followed by `\|([^>]+)>`:
`run` is the maximal non-whitespace run after the `/`, `rest0` what follows
it; candidate split points are tried from the rightmost `|` leftwards. -/
def pathSearch (run rest0 : List Char) : Nat → Option (List Char × List Char)
  | 0 => Option.none
  | k + 1 =>
    if run.getD k (' ') == ('|') then
      match labelMatch (run.drop (k + 1) ++ rest0) with
      | some r => some r
      | Option.none => pathSearch run rest0 k
    else pathSearch run rest0 k

/-- Consumes further `(?:\.[\w-]+)` groups of the domain; the loop is
forced to continue exactly when a dot followed by a word character is
next (any other choice fails the rest of the pattern). -/
def dotGroupsLoop : Nat → List Char → List Char
  | 0, l => l
  | fuel + 1, l =>
    match l with
    | '.' :: c :: rest =>
      if isWordH c then dotGroupsLoop fuel ((c :: rest).dropWhile isWordH)
      else l
    | _ => l

/-- Matches `[\w-]+(?:\.[\w-]+)+`, returning the rest on success. -/
def matchDomain (l : List Char) : Option (List Char) :=
  let run := l.takeWhile isWordH
  if run.isEmpty then Option.none
  else
    match l.dropWhile isWordH with
    | '.' :: c :: rest =>
      if isWordH c then some (dotGroupsLoop rest.length ((c :: rest).dropWhile isWordH))
      else Option.none
    | _ => Option.none

/-- Matches the pattern after the optional scheme: domain, optional dot,
optional port, optional path, `\|([^>]+)>`. -/
def tailMatch (l : List Char) : Option (List Char × List Char) :=
  match matchDomain l with
  | Option.none => Option.none
  | some l1 =>
    let l2 := match l1 with
      | '.' :: r => r
      | _ => l1
    let l3 := match l2 with
      | ':' :: r => if (r.takeWhile Char.isDigit).isEmpty then l2 else r.dropWhile Char.isDigit
      | _ => l2
    match l3 with
    | '/' :: r =>
      let run := r.takeWhile (fun c => !c.isWhitespace)
      pathSearch run (r.dropWhile (fun c => !c.isWhitespace)) run.length
    | '|' :: r => labelMatch r
    | _ => Option.none

/-- Attempts a match of the full pattern at the head of `l`; on success
returns the captured label and the characters after the match. -/
def matchAt (l : List Char) : Option (List Char × List Char) :=
  match l with
  | [] => Option.none
  | c :: r =>
    if c == ('<') then
      let schemes : List (List Char) := [("https://").toList, ("http://").toList]
      let withScheme := schemes.foldr
        (fun p acc =>
          match (if p.isPrefixOf r then tailMatch (r.drop p.length) else Option.none) with
          | some m => some m
          | Option.none => acc)
        Option.none
      match withScheme with
      | some m => some m
      | Option.none => tailMatch r
    else Option.none

/-- Embeds `re.finditer(SLACK_TEXT_EXTRACTOR, text)`: scans left to right,
returning `(start, end, label)` triples of non-overlapping matches.  The
fuel argument is the length of the remaining suffix. -/
def findMatches : Nat → List Char → Nat → List (Nat × Nat × List Char)
  | 0, _, _ => []
  | fuel + 1, l, pos =>
    match l with
    | [] => []
    | c :: rest =>
      match matchAt (c :: rest) with
      | some (label, after) =>
        let mlen := (c :: rest).length - after.length
        (pos, pos + mlen, label) :: findMatches fuel after (pos + mlen)
      | Option.none => findMatches fuel rest (pos + 1)

/-- Embeds the replacement loop of `clean_links`: matches are spliced out
in reverse position order, `text = text[:start] + label + text[end:]`. -/
def applyMatches (text : List Char) (ms : List (Nat × Nat × List Char)) : List Char :=
  ms.foldl (fun t m => t.take m.1 ++ m.2.2 ++ t.drop m.2.1) text

/-- Embeds `clean_links` from `slack_helpers.py`: strip the link part out
of slack fancy URLs, keeping only the label text. -/
def clean_links (text : String) : String :=
  let l := text.toList
  let results := findMatches l.length l 0
  String.mk (applyMatches l results.reverse)

/-- Values of the dictionaries handed to `dict_to_table`: Python strings,
ints, `None`, or lists whose elements are rendered by `str`. -/
inductive TVal where
  | vstr (s : String)
  | vint (n : Int)
  | vnone
  | vlist (items : List String)
deriving DecidableEq, Repr

/-- The `", ".join(sv)` cell text of one `dict_to_table` value. -/
def joinVals : TVal → String
  | TVal.vstr s => s
  | TVal.vint n => toString n
  | TVal.vnone => ("None")
  | TVal.vlist items => joinSep (", ") items

/-- Embeds `formatting.format(*args)` for the row template
`"{:<w} | ... | {:<w}"` with `nCols` columns: Python raises `IndexError`
when there are fewer arguments than placeholders and ignores extras. -/
def formatRow (width nCols : Nat) (args : List String) : Except PyExn String :=
  if nCols ≤ args.length then
    Except.ok (joinSep (" | ") ((args.take nCols).map (ljust width)))
  else Except.error PyExn.indexError

/-- Renders the per-entry rows of `dict_to_table`. -/
def tableRows (width nCols : Nat) : List (String × TVal) → Except PyExn (List String)
  | [] => Except.ok []
  | (key, value) :: rest =>
    match formatRow width nCols [key, joinVals value] with
    | Except.error e => Except.error e
    | Except.ok row =>
      match tableRows width nCols rest with
      | Except.error e => Except.error e
      | Except.ok rs => Except.ok (row :: rs)

/-- Length of the longest key, as `len(max(keys, key=len))` computes it. -/
def maxKeyLen (dictionary : List (String × TVal)) : Nat :=
  dictionary.foldl (fun acc kv => max acc kv.1.length) 0

/-- Embeds `dict_to_table` from `slack_helpers.py`.  `max` over the keys of
an empty dictionary raises `ValueError`; the Python falsy test makes an
empty title list and a zero width fall back to the defaults. -/
def dict_to_table (dictionary : List (String × TVal)) (titles : Option (List String))
    (width : Option Nat) : Except PyExn (List String) :=
  let titles := match titles with
    | some ts => if ts.isEmpty then [("Key"), ("Value")] else ts
    | Option.none => [("Key"), ("Value")]
  let widthE : Except PyExn Nat := match width with
    | some w =>
      if w == 0 then
        if dictionary.isEmpty then Except.error PyExn.valueError
        else Except.ok (maxKeyLen dictionary + 2)
      else Except.ok w
    | Option.none =>
      if dictionary.isEmpty then Except.error PyExn.valueError
      else Except.ok (maxKeyLen dictionary + 2)
  match widthE with
  | Except.error e => Except.error e
  | Except.ok w =>
    match formatRow w titles.length titles with
    | Except.error e => Except.error e
    | Except.ok header =>
      match tableRows w titles.length dictionary with
      | Except.error e => Except.error e
      | Except.ok rows =>
        Except.ok (header :: String.mk (List.replicate (w * titles.length) ('-')) :: rows)

/-!
The internationalized string table (`blossom/strings`, an external
collaborator per the spec) is modelled as distinct constant templates;
`str.format` interpolation is modelled by `pyFormat1` /
`formatUsernameTmpl`.
-/

/-- Modelled from the spec: `i18n["slack"]["errors"]["missing_username"]`. -/
def i18n_missing_username : String := "slack.errors.missing_username"

/-- Modelled from the spec: `i18n["slack"]["errors"]["too_many_params"]`. -/
def i18n_too_many_params : String := "slack.errors.too_many_params"

/-- Modelled from the spec: `i18n["slack"]["errors"]["unknown_username"]`,
a template with a `\x7busername\x7d` placeholder. -/
def i18n_unknown_username : String := "slack.errors.unknown_username \x7busername\x7d"

/-- Modelled from the spec: `i18n["slack"]["errors"]["no_user_by_that_name"]`. -/
def i18n_no_user_by_that_name : String := "slack.errors.no_user_by_that_name"

/-- Modelled from the spec: `i18n["slack"]["errors"]["message_parse_error"]`. -/
def i18n_message_parse_error : String := "slack.errors.message_parse_error"

/-- Modelled from the spec: `i18n["slack"]["errors"]["empty_message_error"]`. -/
def i18n_empty_message_error : String := "slack.errors.empty_message_error"

/-- Modelled from the spec: `i18n["slack"]["errors"]["unknown_request"]`. -/
def i18n_unknown_request : String := "slack.errors.unknown_request"

/-- Modelled from the spec: `i18n["slack"]["errors"]["unknown_payload"]`,
with its positional `.format(value)` applied. -/
def i18n_unknown_payload (value : String) : String :=
  "slack.errors.unknown_payload " ++ value

/-- Modelled from the spec: `i18n["slack"]["help_message"]`. -/
def i18n_help_message : String := "slack.help_message"

/-- Modelled from the spec: `i18n["slack"]["server_summary"]` with its
positional `.format(table)` applied. -/
def i18n_server_summary (table : String) : String :=
  "slack.server_summary " ++ table

/-- Modelled from the spec: `i18n["slack"]["user_info"]` with its
positional `.format(username, table)` applied. -/
def i18n_user_info (username table : String) : String :=
  "slack.user_info " ++ username ++ (" ") ++ table

/-- Modelled from the spec: `i18n["slack"]["blacklist"]["success"]` with
`.format(username)` applied. -/
def i18n_blacklist_success (username : String) : String :=
  "slack.blacklist.success " ++ username

/-- Modelled from the spec: `i18n["slack"]["blacklist"]["success_undo"]`
with `.format(username)` applied. -/
def i18n_blacklist_success_undo (username : String) : String :=
  "slack.blacklist.success_undo " ++ username

/-- Modelled from the spec: `i18n["slack"]["reset_coc"]["success"]` with
`.format(username)` applied. -/
def i18n_reset_coc_success (username : String) : String :=
  "slack.reset_coc.success " ++ username

/-- Modelled from the spec: `i18n["slack"]["reset_coc"]["success_undo"]`
with `.format(username)` applied. -/
def i18n_reset_coc_success_undo (username : String) : String :=
  "slack.reset_coc.success_undo " ++ username

/-- Modelled from the spec: `i18n["slack"]["dadjoke"]["fallback_joke"]`. -/
def i18n_fallback_joke : String := "slack.dadjoke.fallback_joke"

/-- Modelled from the spec: `i18n["slack"]["dadjoke"]["message"]` with
`.format(ping_username, joke)` applied. -/
def i18n_dadjoke_message (ping_username joke : String) : String :=
  "slack.dadjoke.message " ++ ping_username ++ (" ") ++ joke

/-- Modelled from the spec: `i18n["slack"]["watchstatus"]["success"]` with
`.format(user=..., status=...)` applied. -/
def i18n_watchstatus_success (user status : String) : String :=
  "slack.watchstatus.success " ++ user ++ (" ") ++ status

/-- Replaces every non-overlapping occurrence of `pat` in `l` by `rep`,
left to right, as Python `str.replace` does; fuelled by `l`'s length. -/
def replaceSub : Nat → List Char → List Char → List Char → List Char
  | 0, l, _, _ => l
  | fuel + 1, l, pat, rep =>
    match l with
    | [] => []
    | c :: rest =>
      if pat.isPrefixOf (c :: rest) then
        rep ++ replaceSub fuel ((c :: rest).drop pat.length) pat rep
      else c :: replaceSub fuel rest pat rep

/-- Embeds `template.format(username=u)`: replaces the named placeholder. -/
def formatUsernameTmpl (tmpl username : String) : String :=
  String.mk (replaceSub tmpl.toList.length tmpl.toList (("\x7busername\x7d").toList)
    username.toList)

/-- A `BlossomUser` row of the external record store, restricted to the
fields the embedded handlers touch. -/
structure BUser where
  username : String
  blacklisted : Bool
  accepted_coc : Bool
  id : Int
  is_bot : Bool
deriving DecidableEq, Repr

/-- A `Submission` row of the external record store, restricted to the
fields the embedded code touches. -/
structure Submission where
  id : Int
  removed_from_queue : Bool
  approved : Bool
deriving DecidableEq, Repr

/-- The external record store visible to the handlers. -/
structure StoreState where
  users : List BUser
  submissions : List Submission
deriving DecidableEq, Repr

/-- Outbound side effects of a request: chat posts, chat updates, the
Reddit removal action, and record saves. -/
inductive Effect where
  | postMessage (channel : Chan) (text : String)
  | chatUpdate (channel ts : PyVal) (blocks : List PyVal)
  | removePost (id : Int)
  | saveSubmission (id : Int) (skipExtras : Bool)
  | saveUser (username : String)
deriving BEq, Repr

/-- Embeds `BlossomUser.objects.filter(username__iexact=name).first()`:
first user whose username matches case-insensitively. -/
def findUserIexact (users : List BUser) (name : String) : Option BUser :=
  users.find? (fun u => pyLower u.username == pyLower name)

/-- Embeds `user.save()`: writes the row back, keyed by the username. -/
def storeSaveUser (st : StoreState) (old new : BUser) : StoreState :=
  { st with users := st.users.map (fun u => if u.username == old.username then new else u) }

/-- Embeds `Submission.objects.get(id=n)`: `DoesNotExist` when absent. -/
def storeGetSubmission (st : StoreState) (n : Int) : Except PyExn Submission :=
  match st.submissions.find? (fun s => s.id == n) with
  | some s => Except.ok s
  | Option.none => Except.error PyExn.doesNotExist

/-- Embeds `submission.save(...)`: writes the row with the same id back. -/
def storeSaveSubmission (st : StoreState) (s : Submission) : StoreState :=
  { st with submissions := st.submissions.map (fun x => if x.id == s.id then s else x) }

/-- The result type of one handled request: the possibly-mutated store and
the outbound effects, or a propagated Python exception. -/
abbrev HandlerResult := Except PyExn (StoreState × List Effect)

/-- Modelled from the spec: `Summary().generate_summary()`, the external
aggregation report (out of scope per spec section 1); a fixed non-empty
mapping. -/
def generate_summary : List (String × TVal) :=
  [(("volunteers"), TVal.vint 100), (("transcriptions"), TVal.vint 2000),
   (("days_open"), TVal.vint 500)]

/-- Modelled from the spec: `VolunteerSerializer(user).data`, the external
serializer of the record store. -/
def volunteerData (user : BUser) : List (String × TVal) :=
  [(("username"), TVal.vstr user.username),
   (("blacklisted"), TVal.vstr (if user.blacklisted then ("True") else ("False")))]

/-- Embeds `pong` from `slack_helpers.py`: always replies "PONG". -/
def pong (channel : Chan) (message : String) (st : StoreState) : HandlerResult :=
  Except.ok (st, [Effect.postMessage channel ("PONG")])

/-- Embeds `send_help_message` from `slack_helpers.py`. -/
def send_help_message (channel : Chan) (message : String) (st : StoreState) : HandlerResult :=
  Except.ok (st, [Effect.postMessage channel i18n_help_message])

/-- Embeds `send_info` from `slack_helpers.py`: one token posts the server
summary, two tokens look the raw (unsanitized) second token up
case-insensitively, more post the too-many-params error. -/
def send_info (channel : Chan) (message : String) (st : StoreState) : HandlerResult :=
  let parsed_message := pySplit message
  if parsed_message.length == 1 then
    match dict_to_table generate_summary Option.none Option.none with
    | Except.error e => Except.error e
    | Except.ok lines =>
      Except.ok (st, [Effect.postMessage channel
        (i18n_server_summary (joinSep ("\n") lines))])
  else if parsed_message.length == 2 then
    match findUserIexact st.users (parsed_message.getD 1 ("")) with
    | some user =>
      match dict_to_table (volunteerData user) Option.none Option.none with
      | Except.error e => Except.error e
      | Except.ok lines =>
        Except.ok (st, [Effect.postMessage channel
          (i18n_user_info user.username (joinSep ("\n") lines))])
    | Option.none => Except.ok (st, [Effect.postMessage channel i18n_no_user_by_that_name])
  else Except.ok (st, [Effect.postMessage channel i18n_too_many_params])

/-- Embeds `process_blacklist` from `slack_helpers.py`: sanitizes the
token, looks it up case-insensitively, toggles `blacklisted`; note the
unknown-username reply is the template with no `.format` applied. -/
def process_blacklist (channel : Chan) (message : String) (st : StoreState) : HandlerResult :=
  let parsed_message := pySplit message
  if parsed_message.length == 1 then
    Except.ok (st, [Effect.postMessage channel i18n_missing_username])
  else if parsed_message.length == 2 then
    let username := clean_links (parsed_message.getD 1 (""))
    match findUserIexact st.users username with
    | some user =>
      if user.blacklisted then
        Except.ok (storeSaveUser st user { user with blacklisted := false },
          [Effect.saveUser user.username,
           Effect.postMessage channel (i18n_blacklist_success_undo username)])
      else
        Except.ok (storeSaveUser st user { user with blacklisted := true },
          [Effect.saveUser user.username,
           Effect.postMessage channel (i18n_blacklist_success username)])
    | Option.none => Except.ok (st, [Effect.postMessage channel i18n_unknown_username])
  else Except.ok (st, [Effect.postMessage channel i18n_too_many_params])

/-- Embeds `process_coc_reset` from `slack_helpers.py`: sanitizes the
token, looks it up case-insensitively, toggles `accepted_coc`; the
unknown-username reply again has no `.format` applied. -/
def process_coc_reset (channel : Chan) (message : String) (st : StoreState) : HandlerResult :=
  let parsed_message := pySplit message
  if parsed_message.length == 1 then
    Except.ok (st, [Effect.postMessage channel i18n_missing_username])
  else if parsed_message.length == 2 then
    let username := clean_links (parsed_message.getD 1 (""))
    match findUserIexact st.users username with
    | some user =>
      if user.accepted_coc then
        Except.ok (storeSaveUser st user { user with accepted_coc := false },
          [Effect.saveUser user.username,
           Effect.postMessage channel (i18n_reset_coc_success username)])
      else
        Except.ok (storeSaveUser st user { user with accepted_coc := true },
          [Effect.saveUser user.username,
           Effect.postMessage channel (i18n_reset_coc_success_undo username)])
    | Option.none => Except.ok (st, [Effect.postMessage channel i18n_unknown_username])
  else Except.ok (st, [Effect.postMessage channel i18n_too_many_params])

/-- Embeds `dadjoke_target` from `slack_helpers.py`.  The external fetch
from icanhazdadjoke.com is modelled by the `fetched` argument: the
try/except makes any failure fall back to the fixed fallback joke. -/
def dadjoke_target (fetched : Except Unit String) (channel : Chan) (message : String)
    (st : StoreState) : HandlerResult :=
  let parsed_message := pySplit message
  let joke := match fetched with
    | Except.ok j => j
    | Except.error _ => i18n_fallback_joke
  let ping_username : Option String :=
    if parsed_message.length == 2 then
      let tok := parsed_message.getD 1 ("")
      if pyStartsWith tok ("<") then some (pyUpper tok) else Option.none
    else Option.none
  let msg := match ping_username with
    | some pu => i18n_dadjoke_message pu joke
    | Option.none => joke
  Except.ok (st, [Effect.postMessage channel msg])

/-- Embeds `get_message` from `slack_helpers.py`.  The try block evaluates
`event["text"][event["text"].index(">") + 2:].lower()`; only `IndexError`
is caught, while `str.index` signals a missing `">"` with `ValueError`,
which therefore propagates. -/
def get_message (data : PyDict) : Except PyExn (Option String) :=
  let event := data.lookup ("event")
  let tryBlock : Except PyExn (Option String) :=
    match (match event with
           | some ev => pyItem ev ("text")
           | Option.none => Except.error PyExn.typeError) with
    | Except.error e => Except.error e
    | Except.ok textV =>
      match textV with
      | PyVal.str text =>
        match text.toList.findIdx? (fun c => c == ('>')) with
        | some i => Except.ok (some (pyLower (String.mk (text.toList.drop (i + 2)))))
        | Option.none => Except.error PyExn.valueError
      | _ => Except.error PyExn.attributeError
  match tryBlock with
  | Except.error PyExn.indexError => Except.ok Option.none
  | other => other

/-- The replacement block posted on the "keep" branch of
`process_submission_update`. -/
def keptBlock : PyVal :=
  PyVal.dict [(("type"), PyVal.str ("section")),
    (("text"), PyVal.dict [(("type"), PyVal.str ("mrkdwn")),
      (("text"), PyVal.str ("Thank you! This submission has been kept."))])]

/-- The replacement block posted on the removal branch of
`process_submission_update`, naming the submission id. -/
def removedBlock (id : Int) : PyVal :=
  PyVal.dict [(("type"), PyVal.str ("section")),
    (("text"), PyVal.dict [(("type"), PyVal.str ("mrkdwn")),
      (("text"), PyVal.str (("Submission ID ") ++ toString id ++
        (" has been removed from the queue.")))])]

/-- Embeds Python `blocks[-1] = b`: `IndexError` on an empty list. -/
def setLastBlock (blocks : List PyVal) (b : PyVal) : Except PyExn (List PyVal) :=
  if blocks.isEmpty then Except.error PyExn.indexError
  else Except.ok (blocks.set (blocks.length - 1) b)

/-- Embeds `process_submission_update` from `slack_helpers.py`: decodes
`data["actions"][0].get("value").split("_")`, loads the submission with
`id=int(value[2])`, branches on `value[0] == "keep"`, and finishes with
`chat_update` at the original channel and timestamp. -/
def process_submission_update (data : PyDict) (st : StoreState) : HandlerResult := do
  let actionsV ← pyLookupE data ("actions")
  let a0 ← pyIdx actionsV 0
  let valueOpt ← pyGetAttrGet a0 ("value")
  let valueStr ← (match valueOpt with
    | some (PyVal.str s) => Except.ok s
    | _ => Except.error PyExn.attributeError)
  let value := pySplitOnChar ('_') valueStr
  let messageV ← pyLookupE data ("message")
  let blocksV ← pyItem messageV ("blocks")
  let blocks ← (match blocksV with
    | PyVal.list bs => Except.ok bs
    | _ => Except.error PyExn.typeError)
  let tok2 ← (match value.get? 2 with
    | some t => Except.ok t
    | Option.none => Except.error PyExn.indexError)
  let idn ← (match pyIntParse tok2 with
    | some n => Except.ok n
    | Option.none => Except.error PyExn.valueError)
  let submission_obj ← storeGetSubmission st idn
  let (st1, effs1, blocks1) ←
    (if value.headD ("") == ("keep") then do
      let sub1 := { submission_obj with removed_from_queue := false }
      let blocks1 ← setLastBlock blocks keptBlock
      Except.ok (storeSaveSubmission st sub1,
        [Effect.saveSubmission submission_obj.id true], blocks1)
    else do
      let blocks1 ← setLastBlock blocks (removedBlock submission_obj.id)
      Except.ok (st, [Effect.removePost submission_obj.id], blocks1))
  let channelV ← pyLookupE data ("channel")
  let channelId ← pyItem channelV ("id")
  let tsV ← pyItem messageV ("ts")
  Except.ok (st1, effs1 ++ [Effect.chatUpdate channelId tsV blocks1])

/-- The handler signature the router dispatches to. -/
abbrev Handler := Chan → String → StoreState → HandlerResult

/-- The `options` keyword table of `process_message`, in its fixed
registration order. -/
def slackOptions (fetched : Except Unit String) : List (String × Handler) :=
  [(("ping"), pong), (("help"), send_help_message), (("reset"), process_coc_reset),
   (("info"), send_info), (("blacklist"), process_blacklist),
   (("dadjoke"), dadjoke_target fetched)]

/-- Embeds the `for key in options.keys(): if message.startswith(key)`
loop of `process_message`, falling through to the unknown-request reply. -/
def routeLoop (opts : List (String × Handler)) (channel : Chan) (message : String)
    (st : StoreState) : HandlerResult :=
  match opts with
  | [] => Except.ok (st, [Effect.postMessage channel i18n_unknown_request])
  | (key, h) :: rest =>
    if pyStartsWith message key then h channel message st
    else routeLoop rest channel message st

/-- Embeds `e.get("channel")` after `e = data.get("event")`: a missing
event makes the `.get` an `AttributeError` on `None`. -/
def eventChannelOf (data : PyDict) : Except PyExn Chan :=
  match data.lookup ("event") with
  | some (PyVal.dict es) => Except.ok (es.lookup ("channel"))
  | some _ => Except.error PyExn.attributeError
  | Option.none => Except.error PyExn.attributeError

/-- Embeds `process_message` from `slack_helpers.py`: block actions are
routed to `process_submission_update` (or the unknown-payload reply),
plain events are parsed and dispatched through the keyword loop. -/
def process_message (fetched : Except Unit String) (data : PyDict) (st : StoreState) :
    HandlerResult :=
  if data.lookup ("type") == some (PyVal.str ("block_actions")) then
    (do
      let actionsV ← pyLookupE data ("actions")
      let a0 ← pyIdx actionsV 0
      let valueOpt ← pyGetAttrGet a0 ("value")
      match valueOpt with
      | some (PyVal.str v) =>
        if strContains v ("keep") || strContains v ("remove") then
          process_submission_update data st
        else do
          let channelV ← pyLookupE data ("channel")
          let channelId ← pyItem channelV ("id")
          Except.ok (st, [Effect.postMessage (some channelId) (i18n_unknown_payload v)])
      | _ => Except.error PyExn.typeError)
  else
    match eventChannelOf data with
    | Except.error e => Except.error e
    | Except.ok channel =>
      match get_message data with
      | Except.error e => Except.error e
      | Except.ok message =>
        let actions := data.lookup ("actions")
        let messageFalsy := match message with
          | Option.none => true
          | some m => m == ("")
        if messageFalsy && pyFalsy actions then
          Except.ok (st, [Effect.postMessage channel i18n_message_parse_error])
        else if messageFalsy then
          Except.ok (st, [Effect.postMessage channel i18n_empty_message_error])
        else
          routeLoop (slackOptions fetched) channel (message.getD ("")) st

/-- Modelled from the spec: `parse_user` of `api/slack/utils` (not under
`src/`): "Username resolution is case-insensitive exact match against the
external user store; sanitize markup before lookup", returning the
resolved user (if any) together with the attempted username text. -/
def parse_user (st : StoreState) (token : String) : Option BUser × String :=
  let username := clean_links token
  (findUserIexact st.users username, username)

/-- Modelled from the spec: `user.transcription_check_reason(ignore_low_activity=True)`;
an external record-store computation summarised as an abstract status string. -/
def transcription_check_reason (user : BUser) : String :=
  "watch-status " ++ user.username

/-- Embeds `bool_str` from `info.py`: convert a bool to a Yes/No string. -/
def bool_str (bl : Bool) : String :=
  if bl then ("Yes") else ("No")

/-- Embeds `_format_info_section` from `info.py`: a starred section name
above one "- key: value" line per entry. -/
def format_info_section (name : String) (sectionData : List (String × String)) : String :=
  let section_items :=
    joinSep ("\n") (sectionData.map (fun kv => ("- ") ++ kv.1 ++ (": ") ++ kv.2))
  ("*") ++ name ++ ("*:\n") ++ section_items

/-- Modelled from the spec: the data of the "General" info section.  The
source function `user_general_info` formats gamma counts, the join date
and the last-active date, all read from the external record store and
clock (spec section 4.4), so the section values are modelled as opaque
per-user data. -/
def user_general_info_data (user : BUser) : List (String × String) :=
  [(("Gamma"), ("gamma of ") ++ user.username),
   (("Joined on"), ("joined-on of ") ++ user.username),
   (("Last active"), ("last-active of ") ++ user.username)]

/-- Modelled from the spec: the data of the "Transcription Quality" info
section.  The source function `user_transcription_quality_info` counts
checks, comments and warnings in the external transcription-check log
(spec sections 4.4 and 6), so those values are modelled as opaque
per-user data, with the watch status from `transcription_check_reason`. -/
def user_quality_info_data (user : BUser) : List (String × String) :=
  [(("Checks"), ("checks of ") ++ user.username),
   (("Warnings"), ("warnings of ") ++ user.username),
   (("Comments"), ("comments of ") ++ user.username),
   (("Watch status"), transcription_check_reason user)]

/-- Embeds `user_debug_info` from `info.py`: the raw internal id in
monospace and the three Yes/No flags. -/
def user_debug_info (user : BUser) : List (String × String) :=
  [(("ID"), ("`") ++ toString user.id ++ ("`")),
   (("Blacklisted"), bool_str user.blacklisted),
   (("Bot"), bool_str user.is_bot),
   (("Accepted CoC"), bool_str user.accepted_coc)]

/-- Embeds `user_info_text` from `info.py`: a title naming the user with
a clickable profile reference, then the General, Transcription Quality
and Debug Info sections joined by blank lines.  The composition, the
section formatting and the Debug section are from the source; the data
of the first two sections comes from the external record store and is
spec-modelled above. -/
def user_info_text (user : BUser) : String :=
  let name_link := ("<https://reddit.com/u/") ++ user.username ++ ("|u/") ++
    user.username ++ (">")
  let title := ("Info about *") ++ name_link ++ ("*:")
  let general := format_info_section ("General") (user_general_info_data user)
  let transcription_quality :=
    format_info_section ("Transcription Quality") (user_quality_info_data user)
  let debug := format_info_section ("Debug Info") (user_debug_info user)
  title ++ ("\n\n") ++ general ++ ("\n\n") ++ transcription_quality ++ ("\n\n") ++ debug

/-- Embeds `info_cmd` from `api/slack/commands/info.py`: one token posts
the summary, two tokens resolve via `parse_user` and reply with either the
report or the unknown-username error naming the username. -/
def info_cmd (channel : Chan) (message : String) (st : StoreState) : HandlerResult :=
  let parsed_message := pySplit message
  if parsed_message.length == 1 then
    match dict_to_table generate_summary Option.none Option.none with
    | Except.error e => Except.error e
    | Except.ok lines =>
      Except.ok (st, [Effect.postMessage channel
        (i18n_server_summary (joinSep ("\n") lines))])
  else if parsed_message.length == 2 then
    let (user, username) := parse_user st (parsed_message.getD 1 (""))
    let msg := match user with
      | some u => user_info_text u
      | Option.none => formatUsernameTmpl i18n_unknown_username username
    Except.ok (st, [Effect.postMessage channel msg])
  else Except.ok (st, [Effect.postMessage channel i18n_too_many_params])

/-- Embeds `watchstatus_cmd` from
`blossom/api/slack/commands/watchstatus.py`. -/
def watchstatus_cmd (channel : Chan) (message : String) (st : StoreState) : HandlerResult :=
  let parsed_message := pySplit message
  if parsed_message.length == 1 then
    Except.ok (st, [Effect.postMessage channel i18n_missing_username])
  else if parsed_message.length == 2 then
    let (user, username) := parse_user st (parsed_message.getD 1 (""))
    let msg := match user with
      | some u => i18n_watchstatus_success username (transcription_check_reason u)
      | Option.none => formatUsernameTmpl i18n_unknown_username username
    Except.ok (st, [Effect.postMessage channel msg])
  else Except.ok (st, [Effect.postMessage channel i18n_too_many_params])

/-- An inbound HTTP request as the signature verifiers see it: headers and
the raw body (bytes modelled as the decoded string). -/
structure HttpRequest where
  headers : List (String × String)
  body : String

/-- Header lookup, `request.headers.get(name)`. -/
def headerGet (r : HttpRequest) (name : String) : Option String :=
  r.headers.lookup name

/-- Embeds `is_valid_slack_request` from `slack_helpers.py`.  The
HMAC-SHA256 hex digest primitive is passed in as `hmacSha256Hex` (keyed by
the signing secret, applied to the basestring); `hmac.compare_digest` is
modelled by its value, string equality.  `time.time()` is `now`; a missing
timestamp header raises `KeyError` and a non-numeric one `ValueError`,
exactly as `request.headers[...]` and `int(...)` do. -/
def is_valid_slack_request (hmacSha256Hex : String → String → String)
    (signingSecret : String) (now : Int) (r : HttpRequest) : Except PyExn Bool :=
  match headerGet r ("X-Slack-Signature") with
  | Option.none => Except.ok false
  | some slack_signature =>
    match headerGet r ("X-Slack-Request-Timestamp") with
    | Option.none => Except.error PyExn.keyError
    | some timestamp =>
      match pyIntParse timestamp with
      | Option.none => Except.error PyExn.valueError
      | some ts =>
        if 60 * 5 < |now - ts| then Except.ok false
        else
          let sig_basestring := ("v0:") ++ timestamp ++ (":") ++ r.body
          let signature := ("v0=") ++ hmacSha256Hex signingSecret sig_basestring
          Except.ok (signature == slack_signature)

/-!
The relative-time formatter of `api/slack/commands/info.py`.  Python
floats are modelled by `Rat`; `f"{v:.1f}"` / `f"{v:0.0f}"` formatting is
round-half-even on the (exact) value.
-/

/-- Round half to even, as Python float formatting rounds. -/
def rhe (q : Rat) : Int :=
  let f := ⌊q⌋
  let r := q - f
  if r < 1 / 2 then f
  else if 1 / 2 < r then f + 1
  else if f % 2 == 0 then f else f + 1

/-- Embeds `f"{q:.1f}"` for the non-negative values this code formats. -/
def formatFixed1 (q : Rat) : String :=
  let n := (rhe (q * 10)).toNat
  toString (n / 10) ++ (".") ++ toString (n % 10)

/-- Embeds `f"{q:0.0f}"` for the non-negative values this code formats. -/
def formatFixed0 (q : Rat) : String :=
  toString (rhe q).toNat

/-- Embeds `_relative_duration` from `info.py`, including the
`seconds / 1000` computation of the millisecond branch exactly as the
source writes it. -/
def relative_duration (deltaSeconds : Rat) : String :=
  let seconds := |deltaSeconds|
  let minutes := seconds / 60
  let hours := minutes / 60
  let days := hours / 24
  let weeks := days / 7
  let months := days / 30
  let years := days / 365
  let vu : Rat × String :=
    if 1 ≤ years then (years, ("year"))
    else if 1 ≤ months then (months, ("month"))
    else if 1 ≤ weeks then (weeks, ("week"))
    else if 1 ≤ days then (days, ("day"))
    else if 1 ≤ hours then (hours, ("hour"))
    else if 1 ≤ minutes then (minutes, ("min"))
    else if 5 < seconds then (seconds, ("sec"))
    else (seconds / 1000, ("ms"))
  if vu.2 == ("ms") then formatFixed0 vu.1 ++ (" ms")
  else
    let unit := if vu.1 != 1 then vu.2 ++ ("s") else vu.2
    formatFixed1 vu.1 ++ (" ") ++ unit

/-- Embeds the relative part of `_format_time` from `info.py`: for a
delta of `now - time` the suffix is "ago" when `now >= time`, else the
"in" prefix is used. -/
def format_time_rel (deltaSeconds : Rat) : String :=
  if 0 ≤ deltaSeconds then relative_duration deltaSeconds ++ (" ago")
  else ("in ") ++ relative_duration deltaSeconds

/-- The ordered unit table of the spec: largest first, each with its
length in seconds (years fixed at 365 days, months at 30). -/
def specUnits : List (Rat × String) :=
  [(31536000, ("year")), (2592000, ("month")), (604800, ("week")),
   (86400, ("day")), (3600, ("hour")), (60, ("min"))]

/-- Formats one unit per the (amended) spec sentence: one decimal place,
pluralized with a trailing "s" unless the value equals exactly 1. -/
def specFormat (v : Rat) (u : String) : String :=
  formatFixed1 v ++ (" ") ++ (if v = 1 then u else u ++ ("s"))

/-- Picks the first unit of the ordered table whose length fits into the
delta at least once. -/
def specPick (s : Rat) : List (Rat × String) → Option (Rat × String)
  | [] => Option.none
  | du :: rest => if du.1 ≤ s then some du else specPick s rest

/-- Formalizes the spec sentence describing the relative-duration computation for
deltas above the 5-second threshold: pick the largest unit from the
ordered sequence whose length fits into the delta at least once (seconds
otherwise), and format its quotient. -/
def specRelDurBig (s : Rat) : String :=
  match specPick s specUnits with
  | some du => specFormat (s / du.1) du.2
  | Option.none => specFormat s ("sec")

/-- Modelled from the spec: the submission state-change PATCH endpoint
(only its tests are under `src/`).  "accepts an optional boolean
`removed_from_queue`; absent value defaults to `true` (mark removed)...
if removal transitions a previously-approved submission to removed, the
approval flag is cleared atomically in the same update... No-op if the
requested state already matches current state (must still return
success)"; success is HTTP 200. -/
def submission_remove_patch (removed_from_queue : Option Bool) (sub : Submission) :
    Nat × Submission :=
  let requested := removed_from_queue.getD true
  if sub.removed_from_queue == requested then (200, sub)
  else if requested then (200, { sub with removed_from_queue := true, approved := false })
  else (200, { sub with removed_from_queue := false })

/-- The ids passed to the external Reddit removal action among a list of
effects. -/
def effectRemoveIds (effs : List Effect) : List Int :=
  effs.filterMap (fun e => match e with
    | Effect.removePost n => some n
    | _ => Option.none)

/-- A block-action callback payload of the shape
`process_submission_update` consumes. -/
def mkBlockActionData (value channel ts : String) (blocks : List PyVal) : PyDict :=
  [(("actions"), PyVal.list [PyVal.dict [(("value"), PyVal.str value)]]),
   (("message"), PyVal.dict [(("ts"), PyVal.str ts), (("blocks"), PyVal.list blocks)]),
   (("channel"), PyVal.dict [(("id"), PyVal.str channel)])]

/-- The behaviour of `process_submission_update` once the payload of
`mkBlockActionData` shape has been destructured: parameterized over the
already-split action value, the channel id, the timestamp and the block
list.  `process_submission_update` on such a payload reduces to this
definitionally. -/
def psuCore (value : List String) (channel ts : String) (blocks : List PyVal)
    (st : StoreState) : HandlerResult :=
  match value.get? 2 with
  | Option.none => Except.error PyExn.indexError
  | some tok2 =>
    match pyIntParse tok2 with
    | Option.none => Except.error PyExn.valueError
    | some idn =>
      match storeGetSubmission st idn with
      | Except.error e => Except.error e
      | Except.ok submission_obj =>
        if value.headD ("") == ("keep") then
          match setLastBlock blocks keptBlock with
          | Except.error e => Except.error e
          | Except.ok blocks1 =>
            Except.ok
              (storeSaveSubmission st { submission_obj with removed_from_queue := false },
                [Effect.saveSubmission submission_obj.id true,
                 Effect.chatUpdate (PyVal.str channel) (PyVal.str ts) blocks1])
        else
          match setLastBlock blocks (removedBlock submission_obj.id) with
          | Except.error e => Except.error e
          | Except.ok blocks1 =>
            Except.ok (st,
              [Effect.removePost submission_obj.id,
               Effect.chatUpdate (PyVal.str channel) (PyVal.str ts) blocks1])

/-- The row list `tableRows` produces when it succeeds with two columns. -/
def tableRowsOk (w : Nat) (d : List (String × TVal)) : List String :=
  d.map (fun kv => joinSep (" | ") (([kv.1, joinVals kv.2].take 2).map (ljust w)))

/-- The full line list `dict_to_table` produces with default titles. -/
def dictToTableDefault (d : List (String × TVal)) (w : Nat) : List String :=
  joinSep (" | ") (([("Key"), ("Value")].take 2).map (ljust w)) ::
    String.mk (List.replicate (w * 2) ('-')) :: tableRowsOk w d

/-- The joined summary table text that the one-token info reply carries. -/
def summaryText : String :=
  joinSep ("\n")
    (dictToTableDefault generate_summary (maxKeyLen generate_summary + 2))

/-!
Helper lemmas shared by the claim theorems.
-/

/-- Two-column row rendering never raises. -/
theorem tableRows_two (w : Nat) (d : List (String × TVal)) :
    tableRows w 2 d = Except.ok (tableRowsOk w d) := by
  induction d with
  | nil => rfl
  | cons kv rest ih =>
    show (match formatRow w 2 [kv.1, joinVals kv.2] with
      | Except.error e => Except.error e
      | Except.ok row =>
        match tableRows w 2 rest with
        | Except.error e => Except.error e
        | Except.ok rs => Except.ok (row :: rs)) = _
    rw [show formatRow w 2 [kv.1, joinVals kv.2] = Except.ok (joinSep (" | ")
      (([kv.1, joinVals kv.2].take 2).map (ljust w))) from rfl, ih]
    rfl

/-- With default titles and a non-empty mapping (or a non-zero explicit
width), `dict_to_table` renders the default table. -/
theorem dict_to_table_default (d : List (String × TVal)) (hd : d.isEmpty = false) :
    dict_to_table d Option.none Option.none =
      Except.ok (dictToTableDefault d (maxKeyLen d + 2)) := by
  unfold dict_to_table
  simp only [hd, Bool.false_eq_true, if_false]
  rw [show formatRow (maxKeyLen d + 2) ([("Key"), ("Value")] : List String).length
    [("Key"), ("Value")] = Except.ok (joinSep (" | ")
      (([("Key"), ("Value")].take 2).map (ljust (maxKeyLen d + 2)))) from rfl]
  rw [show ([("Key"), ("Value")] : List String).length = 2 from rfl]
  rw [tableRows_two]
  rfl

/-- With an explicit non-zero width, `dict_to_table` renders the default
table at that width for any mapping. -/
theorem dict_to_table_width (d : List (String × TVal)) (w : Nat) (hw : (w == 0) = false) :
    dict_to_table d Option.none (some w) = Except.ok (dictToTableDefault d w) := by
  unfold dict_to_table
  simp only [hw, Bool.false_eq_true, if_false]
  rw [show formatRow w ([("Key"), ("Value")] : List String).length
    [("Key"), ("Value")] = Except.ok (joinSep (" | ")
      (([("Key"), ("Value")].take 2).map (ljust w))) from rfl]
  rw [show ([("Key"), ("Value")] : List String).length = 2 from rfl]
  rw [tableRows_two]
  rfl

/-- Rebuilding a string from its character list is the identity. -/
theorem strMk_toList (s : String) : String.mk s.toList = s := rfl

/-- The pattern matcher fails at any position not starting with `<`. -/
theorem matchAt_not_lt (c : Char) (r : List Char) (h : (c == ('<')) = false) :
    matchAt (c :: r) = Option.none := by
  simp only [matchAt, h, Bool.false_eq_true, if_false]

/-- A text without `<` has no matches of the link pattern. -/
theorem findMatches_eq_nil :
    ∀ (fuel : Nat) (l : List Char) (pos : Nat),
      (∀ c ∈ l, (c == ('<')) = false) → findMatches fuel l pos = [] := by
  intro fuel
  induction fuel with
  | zero => intro l pos _; rfl
  | succ n ih =>
    intro l pos h
    cases l with
    | nil => rfl
    | cons c rest =>
      show (match matchAt (c :: rest) with
        | some (label, after) =>
          let mlen := (c :: rest).length - after.length
          (pos, pos + mlen, label) :: findMatches n after (pos + mlen)
        | Option.none => findMatches n rest (pos + 1)) = []
      rw [matchAt_not_lt c rest (h c (List.mem_cons_self c rest))]
      exact ih rest (pos + 1) (fun x hx => h x (List.mem_cons_of_mem c hx))

/-- `clean_links` leaves any string without `<` unchanged. -/
theorem clean_links_no_lt (x : String) (h : ∀ c ∈ x.toList, c ≠ ('<')) :
    clean_links x = x := by
  have hfm := findMatches_eq_nil x.toList.length x.toList 0
    (fun c hc => beq_eq_false_iff_ne.mpr (h c hc))
  show String.mk (applyMatches x.toList (findMatches x.toList.length x.toList 0).reverse) = x
  rw [hfm]
  simp only [List.reverse_nil, applyMatches, List.foldl_nil]
  exact strMk_toList x

/-- Claim C1: `is_valid_slack_request` returns false when the
X-Slack-Signature header is absent, returns false when the absolute
difference between now and the declared timestamp exceeds 300 seconds
(even when the HMAC is correct), and otherwise returns the constant-time
comparison of the declared header against
`"v0=" + hex(HMAC-SHA256(secret, "v0:" + timestamp + ":" + body))`. -/
theorem C1_slack_signature_verification
    (hmacSha256Hex : String → String → String) (secret : String) (now : Int)
    (r : HttpRequest) :
    (headerGet r ("X-Slack-Signature") = Option.none →
      is_valid_slack_request hmacSha256Hex secret now r = Except.ok false) ∧
    (∀ sig tsStr ts,
      headerGet r ("X-Slack-Signature") = some sig →
      headerGet r ("X-Slack-Request-Timestamp") = some tsStr →
      pyIntParse tsStr = some ts →
      (300 < |now - ts| →
        is_valid_slack_request hmacSha256Hex secret now r = Except.ok false) ∧
      (|now - ts| ≤ 300 →
        is_valid_slack_request hmacSha256Hex secret now r =
          Except.ok ((("v0=") ++ hmacSha256Hex secret
            (("v0:") ++ tsStr ++ (":") ++ r.body)) == sig))) := by
  constructor
  · intro h
    simp only [is_valid_slack_request, h]
  · intro sig tsStr ts h1 h2 h3
    constructor
    · intro hstale
      have hcond : (60 * 5 : Int) < |now - ts| := by linarith
      simp only [is_valid_slack_request, h1, h2, h3, if_pos hcond]
    · intro hfresh
      have hcond : ¬ (60 * 5 : Int) < |now - ts| := by linarith
      simp only [is_valid_slack_request, h1, h2, h3, if_neg hcond]

/-- Witness for C1: a concrete fresh request with a matching signature is
accepted. -/
theorem C1_slack_signature_verification_witness :
    is_valid_slack_request (fun _ _ => ("X")) ("sec") 200
      ⟨[(("X-Slack-Signature"), ("v0=X")), (("X-Slack-Request-Timestamp"), ("100"))],
        ("b")⟩ = Except.ok true := by
  have h := (C1_slack_signature_verification (fun _ _ => ("X")) ("sec") 200
    ⟨[(("X-Slack-Signature"), ("v0=X")), (("X-Slack-Request-Timestamp"), ("100"))],
      ("b")⟩).2 ("v0=X") ("100") 100 (by rfl) (by rfl) (by decide)
  have h2 := h.2 (by decide)
  rw [h2]
  rfl

/-- Counterexample to C2: `clean_links` is not idempotent and its output
can still contain matches of the pattern — the label captured from
"<a.b|<c.d|X> tail>" itself contains markup-like text, so the first
rewrite yields "<c.d|X tail>", which still matches and which a second
application strips to "X tail". -/
theorem C2_clean_links_not_idempotent :
    clean_links ("<a.b|<c.d|X> tail>") = ("<c.d|X tail>") ∧
    clean_links ("<c.d|X tail>") = ("X tail") ∧
    clean_links (clean_links ("<a.b|<c.d|X> tail>")) ≠
      clean_links ("<a.b|<c.d|X> tail>") ∧
    findMatches (clean_links ("<a.b|<c.d|X> tail>")).toList.length
      (clean_links ("<a.b|<c.d|X> tail>")).toList 0 ≠ [] := by
  exact ⟨by decide, by decide, by decide, by decide⟩

/-- Claim C2 (amended): sanitizing `"<https://example.com|Click Here>"`
yields `"Click Here"`, and `clean_links` is idempotent on strings
containing no `<` character (it leaves them unchanged); on labels that
themselves contain markup a second application can strip further, so
idempotence does not hold for every input. -/
theorem C2_clean_links_amended :
    clean_links ("<https://example.com|Click Here>") = ("Click Here") ∧
    (∀ x : String, (∀ c ∈ x.toList, c ≠ ('<')) → clean_links x = x) ∧
    (∀ x : String, (∀ c ∈ x.toList, c ≠ ('<')) →
      clean_links (clean_links x) = clean_links x) := by
  refine ⟨by decide, clean_links_no_lt, ?_⟩
  intro x h
  rw [clean_links_no_lt x h, clean_links_no_lt x h]

/-- Witness for C2 (amended): a concrete markup-free string is fixed by
`clean_links`. -/
theorem C2_clean_links_amended_witness :
    clean_links ("plain text") = ("plain text") :=
  C2_clean_links_amended.2.1 ("plain text") (by decide)

/-- Claim C3 (failing input): `get_message` raises an uncaught
`ValueError` on an event whose text has no `">"` — `str.index` raises
`ValueError`, but the surrounding handler catches only `IndexError`, so
message-text extraction does not return a value for every payload. -/
theorem C3_get_message_raises :
    get_message [(("event"), PyVal.dict [(("text"), PyVal.str ("hello"))])] =
      Except.error PyExn.valueError := by rfl

/-- Claim C8: a PATCH whose body omits `removed_from_queue` defaults the
requested state to removed and returns success; removing a
previously-approved submission clears the approved flag in the same
update as setting removed-from-queue; and a request whose state already
matches is a no-op that still returns success with the submission
unchanged. -/
theorem C8_submission_remove_patch (sub : Submission) :
    ((submission_remove_patch Option.none sub).1 = 200 ∧
      (submission_remove_patch Option.none sub).2.removed_from_queue = true) ∧
    (sub.approved = true → sub.removed_from_queue = false →
      submission_remove_patch Option.none sub =
        (200, { sub with removed_from_queue := true, approved := false })) ∧
    (∀ req : Option Bool, sub.removed_from_queue = req.getD true →
      submission_remove_patch req sub = (200, sub)) := by
  refine ⟨?_, ?_, ?_⟩
  · unfold submission_remove_patch
    by_cases h : sub.removed_from_queue
    · simp [h]
    · simp [h]
  · intro ha hr
    unfold submission_remove_patch
    simp [hr]
  · intro req h
    unfold submission_remove_patch
    simp [h]

/-- Witness for C8: removing an approved, in-queue submission produces a
single update that both removes it and clears approval. -/
theorem C8_submission_remove_patch_witness :
    submission_remove_patch Option.none ⟨3, false, true⟩ = (200, ⟨3, true, false⟩) :=
  (C8_submission_remove_patch ⟨3, false, true⟩).2.1 rfl rfl

/-- Claim C10: `dict_to_table` on an empty mapping with no explicit width
raises (the Python `max` over an empty key sequence) instead of returning a
list of lines; a non-empty mapping or a (non-zero) explicit width is
sufficient for it to return lines. -/
theorem C10_dict_to_table_empty_raises :
    dict_to_table [] Option.none Option.none = Except.error PyExn.valueError ∧
    (∀ d : List (String × TVal), d ≠ [] →
      ∃ lines, dict_to_table d Option.none Option.none = Except.ok lines) ∧
    (∀ (d : List (String × TVal)) (w : Nat), w ≠ 0 →
      ∃ lines, dict_to_table d Option.none (some w) = Except.ok lines) := by
  refine ⟨rfl, ?_, ?_⟩
  · intro d hd
    have hne : d.isEmpty = false := by
      cases d with
      | nil => exact absurd rfl hd
      | cons a l => rfl
    exact ⟨_, dict_to_table_default d hne⟩
  · intro d w hw
    exact ⟨_, dict_to_table_width d w (by simp [hw])⟩

/-- Witness for C10: a concrete singleton mapping renders to lines. -/
theorem C10_dict_to_table_empty_raises_witness :
    ∃ lines, dict_to_table [(("A"), TVal.vint 1)] Option.none Option.none =
      Except.ok lines :=
  C10_dict_to_table_empty_raises.2.1 [(("A"), TVal.vint 1)] (by decide)

/-- Counterexample to C4: `pong` is a registered handler (for "ping"),
yet a three-token message yields "PONG", not the too-many-parameters
reply — the arity policy is not uniform across registered handlers. -/
theorem C4_arity_counterexample :
    process_message (Except.ok ("joke")) [(("event"), PyVal.dict
        [(("text"), PyVal.str ("<@U> ping a b")), (("channel"), PyVal.str ("C"))])]
      ⟨[], []⟩ =
      Except.ok (⟨[], []⟩, [Effect.postMessage (some (PyVal.str ("C"))) ("PONG")]) ∧
    ("PONG") ≠ i18n_too_many_params := by
  exact ⟨rfl, by decide⟩

/-- Claim C4 (amended): the single-argument record handlers follow the
arity policy — one token yields the missing-parameter reply (the info
handlers produce the full summary instead), three or more tokens yield
the too-many-parameters reply — while `ping`, `help` and `dadjoke`
ignore the token count entirely. -/
theorem C4_arity_policy_amended (channel : Chan) (message : String) (st : StoreState) :
    ((pySplit message).length = 1 →
      process_blacklist channel message st =
        Except.ok (st, [Effect.postMessage channel i18n_missing_username]) ∧
      process_coc_reset channel message st =
        Except.ok (st, [Effect.postMessage channel i18n_missing_username]) ∧
      watchstatus_cmd channel message st =
        Except.ok (st, [Effect.postMessage channel i18n_missing_username]) ∧
      send_info channel message st =
        Except.ok (st, [Effect.postMessage channel (i18n_server_summary summaryText)]) ∧
      info_cmd channel message st =
        Except.ok (st, [Effect.postMessage channel (i18n_server_summary summaryText)])) ∧
    (3 ≤ (pySplit message).length →
      process_blacklist channel message st =
        Except.ok (st, [Effect.postMessage channel i18n_too_many_params]) ∧
      process_coc_reset channel message st =
        Except.ok (st, [Effect.postMessage channel i18n_too_many_params]) ∧
      watchstatus_cmd channel message st =
        Except.ok (st, [Effect.postMessage channel i18n_too_many_params]) ∧
      send_info channel message st =
        Except.ok (st, [Effect.postMessage channel i18n_too_many_params]) ∧
      info_cmd channel message st =
        Except.ok (st, [Effect.postMessage channel i18n_too_many_params])) ∧
    pong channel message st = Except.ok (st, [Effect.postMessage channel ("PONG")]) ∧
    send_help_message channel message st =
      Except.ok (st, [Effect.postMessage channel i18n_help_message]) ∧
    (∀ j, (pySplit message).length ≠ 2 →
      dadjoke_target (Except.ok j) channel message st =
        Except.ok (st, [Effect.postMessage channel j])) := by
  have hsummary := dict_to_table_default generate_summary rfl
  refine ⟨?_, ?_, rfl, rfl, ?_⟩
  · intro h1
    have hb : ((pySplit message).length == 1) = true := by
      rw [beq_iff_eq]; exact h1
    refine ⟨?_, ?_, ?_, ?_, ?_⟩
    · simp only [process_blacklist, hb, if_true]
    · simp only [process_coc_reset, hb, if_true]
    · simp only [watchstatus_cmd, hb, if_true]
    · simp only [send_info, hb, if_true, hsummary, summaryText]
    · simp only [info_cmd, hb, if_true, hsummary, summaryText]
  · intro h3
    have hb1 : ((pySplit message).length == 1) = false := by
      rw [beq_eq_false_iff_ne]; omega
    have hb2 : ((pySplit message).length == 2) = false := by
      rw [beq_eq_false_iff_ne]; omega
    refine ⟨?_, ?_, ?_, ?_, ?_⟩
    · simp only [process_blacklist, hb1, hb2, Bool.false_eq_true, if_false]
    · simp only [process_coc_reset, hb1, hb2, Bool.false_eq_true, if_false]
    · simp only [watchstatus_cmd, hb1, hb2, Bool.false_eq_true, if_false]
    · simp only [send_info, hb1, hb2, Bool.false_eq_true, if_false]
    · simp only [info_cmd, hb1, hb2, Bool.false_eq_true, if_false]
  · intro j h2
    have hb2 : ((pySplit message).length == 2) = false := by
      rw [beq_eq_false_iff_ne]; exact h2
    simp only [dadjoke_target, hb2, Bool.false_eq_true, if_false]

/-- Witness for C4 (amended): the one-token blacklist message posts the
missing-parameter reply. -/
theorem C4_arity_policy_amended_witness :
    process_blacklist Option.none ("blacklist") ⟨[], []⟩ =
      Except.ok (⟨[], []⟩, [Effect.postMessage Option.none i18n_missing_username]) :=
  ((C4_arity_policy_amended Option.none ("blacklist") ⟨[], []⟩).1 (by decide)).1

/-- The formatting step of `_relative_duration` for a non-millisecond
unit agrees with the formatting sentence of the spec with the exact (not
rounded) value deciding pluralization. -/
theorem specFormat_eq_code (v : Rat) (u : String) (hu : (u == ("ms")) = false) :
    (if (u == ("ms")) = true then formatFixed0 v ++ (" ms")
     else formatFixed1 v ++ (" ") ++ (if (v != 1) = true then u ++ ("s") else u)) =
      specFormat v u := by
  rw [hu]
  simp only [Bool.false_eq_true, if_false, specFormat]
  by_cases hv : v = 1
  · simp [hv]
  · simp [hv, bne_iff_ne]

/-- Counterexample to C5: a delta of exactly 3600 seconds formats as the
singular "1.0 hour ago" (the code pluralizes on the exact value, which
here equals 1), not "1.0 hours ago" as the claim states; and a delta of
90000 seconds displays as "1.0 days" even though the rounded shown value
equals 1, refuting the rounded-value pluralization rule. -/
theorem C5_relative_time_counterexample :
    format_time_rel 3600 = ("1.0 hour ago") ∧
    format_time_rel 3600 ≠ ("1.0 hours ago") ∧
    relative_duration 90000 = ("1.0 days") := by
  have h1 : format_time_rel 3600 = ("1.0 hour ago") := by with_unfolding_all rfl
  refine ⟨h1, ?_, by with_unfolding_all rfl⟩
  rw [h1]
  decide

/-- Claim C5 (amended): for deltas above the 5-second threshold the
formatter picks the largest unit of the ordered sequence years (365d),
months (30d), weeks, days, hours, minutes, seconds whose length fits at
least once, shows it with one decimal place, and pluralizes with a
trailing "s" unless the exact value equals 1; at most 5 seconds it falls
through to the "ms"-labelled integer format with no decimal; 3600 s
formats as "1.0 hour ago" and one day as "1.0 day ago". -/
theorem C5_relative_duration_amended :
    (∀ d : Rat, 5 < |d| → relative_duration d = specRelDurBig |d|) ∧
    (∀ d : Rat, |d| ≤ 5 → ∃ n : Nat, relative_duration d = toString n ++ (" ms")) ∧
    format_time_rel 3600 = ("1.0 hour ago") ∧
    format_time_rel 86400 = ("1.0 day ago") := by
  refine ⟨?_, ?_, by with_unfolding_all rfl, by with_unfolding_all rfl⟩
  · intro d h
    have h365 : (1 ≤ |d| / 60 / 60 / 24 / 365) ↔ ((31536000:Rat) ≤ |d|) := by
      rw [div_div, div_div, div_div,
        show (60:Rat) * (60 * (24 * 365)) = 31536000 by norm_num]
      exact one_le_div (by norm_num)
    have e365 : |d| / 60 / 60 / 24 / 365 = |d| / 31536000 := by
      rw [div_div, div_div, div_div,
        show (60:Rat) * (60 * (24 * 365)) = 31536000 by norm_num]
    have h30 : (1 ≤ |d| / 60 / 60 / 24 / 30) ↔ ((2592000:Rat) ≤ |d|) := by
      rw [div_div, div_div, div_div,
        show (60:Rat) * (60 * (24 * 30)) = 2592000 by norm_num]
      exact one_le_div (by norm_num)
    have e30 : |d| / 60 / 60 / 24 / 30 = |d| / 2592000 := by
      rw [div_div, div_div, div_div,
        show (60:Rat) * (60 * (24 * 30)) = 2592000 by norm_num]
    have h7 : (1 ≤ |d| / 60 / 60 / 24 / 7) ↔ ((604800:Rat) ≤ |d|) := by
      rw [div_div, div_div, div_div,
        show (60:Rat) * (60 * (24 * 7)) = 604800 by norm_num]
      exact one_le_div (by norm_num)
    have e7 : |d| / 60 / 60 / 24 / 7 = |d| / 604800 := by
      rw [div_div, div_div, div_div,
        show (60:Rat) * (60 * (24 * 7)) = 604800 by norm_num]
    have hday : (1 ≤ |d| / 60 / 60 / 24) ↔ ((86400:Rat) ≤ |d|) := by
      rw [div_div, div_div, show (60:Rat) * (60 * 24) = 86400 by norm_num]
      exact one_le_div (by norm_num)
    have eday : |d| / 60 / 60 / 24 = |d| / 86400 := by
      rw [div_div, div_div, show (60:Rat) * (60 * 24) = 86400 by norm_num]
    have hhour : (1 ≤ |d| / 60 / 60) ↔ ((3600:Rat) ≤ |d|) := by
      rw [div_div, show (60:Rat) * 60 = 3600 by norm_num]
      exact one_le_div (by norm_num)
    have ehour : |d| / 60 / 60 = |d| / 3600 := by
      rw [div_div, show (60:Rat) * 60 = 3600 by norm_num]
    have hmin : (1 ≤ |d| / 60) ↔ ((60:Rat) ≤ |d|) := one_le_div (by norm_num)
    unfold relative_duration specRelDurBig
    simp only [specUnits, specPick]
    by_cases h1 : (31536000:Rat) ≤ |d|
    · rw [if_pos h1, if_pos (h365.mpr h1)]
      dsimp only
      rw [e365]
      exact specFormat_eq_code _ _ rfl
    · rw [if_neg h1, if_neg (fun hc => h1 (h365.mp hc))]
      by_cases h2 : (2592000:Rat) ≤ |d|
      · rw [if_pos h2, if_pos (h30.mpr h2)]
        dsimp only
        rw [e30]
        exact specFormat_eq_code _ _ rfl
      · rw [if_neg h2, if_neg (fun hc => h2 (h30.mp hc))]
        by_cases h3 : (604800:Rat) ≤ |d|
        · rw [if_pos h3, if_pos (h7.mpr h3)]
          dsimp only
          rw [e7]
          exact specFormat_eq_code _ _ rfl
        · rw [if_neg h3, if_neg (fun hc => h3 (h7.mp hc))]
          by_cases h4 : (86400:Rat) ≤ |d|
          · rw [if_pos h4, if_pos (hday.mpr h4)]
            dsimp only
            rw [eday]
            exact specFormat_eq_code _ _ rfl
          · rw [if_neg h4, if_neg (fun hc => h4 (hday.mp hc))]
            by_cases h5 : (3600:Rat) ≤ |d|
            · rw [if_pos h5, if_pos (hhour.mpr h5)]
              dsimp only
              rw [ehour]
              exact specFormat_eq_code _ _ rfl
            · rw [if_neg h5, if_neg (fun hc => h5 (hhour.mp hc))]
              by_cases h6 : (60:Rat) ≤ |d|
              · rw [if_pos h6, if_pos (hmin.mpr h6)]
                dsimp only
                exact specFormat_eq_code _ _ rfl
              · rw [if_neg h6, if_neg (fun hc => h6 (hmin.mp hc))]
                rw [if_pos h]
                exact specFormat_eq_code _ _ rfl
  · intro d h
    have e365 : |d| / 60 / 60 / 24 / 365 = |d| / 31536000 := by
      rw [div_div, div_div, div_div,
        show (60:Rat) * (60 * (24 * 365)) = 31536000 by norm_num]
    have e30 : |d| / 60 / 60 / 24 / 30 = |d| / 2592000 := by
      rw [div_div, div_div, div_div,
        show (60:Rat) * (60 * (24 * 30)) = 2592000 by norm_num]
    have e7 : |d| / 60 / 60 / 24 / 7 = |d| / 604800 := by
      rw [div_div, div_div, div_div,
        show (60:Rat) * (60 * (24 * 7)) = 604800 by norm_num]
    have eday : |d| / 60 / 60 / 24 = |d| / 86400 := by
      rw [div_div, div_div, show (60:Rat) * (60 * 24) = 86400 by norm_num]
    have ehour : |d| / 60 / 60 = |d| / 3600 := by
      rw [div_div, show (60:Rat) * 60 = 3600 by norm_num]
    unfold relative_duration
    dsimp only
    rw [e365, e30, e7, eday, ehour]
    rw [if_neg (show ¬ (1 ≤ |d| / 31536000) from by
        rw [one_le_div (by norm_num : (0:Rat) < 31536000)]; linarith),
      if_neg (show ¬ (1 ≤ |d| / 2592000) from by
        rw [one_le_div (by norm_num : (0:Rat) < 2592000)]; linarith),
      if_neg (show ¬ (1 ≤ |d| / 604800) from by
        rw [one_le_div (by norm_num : (0:Rat) < 604800)]; linarith),
      if_neg (show ¬ (1 ≤ |d| / 86400) from by
        rw [one_le_div (by norm_num : (0:Rat) < 86400)]; linarith),
      if_neg (show ¬ (1 ≤ |d| / 3600) from by
        rw [one_le_div (by norm_num : (0:Rat) < 3600)]; linarith),
      if_neg (show ¬ (1 ≤ |d| / 60) from by
        rw [one_le_div (by norm_num : (0:Rat) < 60)]; linarith),
      if_neg (show ¬ ((5:Rat) < |d|) from by linarith)]
    exact ⟨(rhe (|d| / 1000)).toNat, rfl⟩

/-- Witness for C5 (amended): the refinement instantiated at a two-hour
delta. -/
theorem C5_relative_duration_amended_witness :
    relative_duration 7200 = specRelDurBig |(7200:Rat)| := by
  have habs : |(7200:Rat)| = 7200 := abs_of_nonneg (by norm_num)
  exact C5_relative_duration_amended.1 7200 (by rw [habs]; norm_num)

/-- Bind on `Except` with a succeeding first step runs the continuation. -/
theorem except_bind_ok {α β : Type} (a : α) (f : α → Except PyExn β) :
    (Except.ok a >>= f : Except PyExn β) = f a := rfl

/-- Bind on `Except` propagates the error of the first step. -/
theorem except_bind_err {α β : Type} (e : PyExn) (f : α → Except PyExn β) :
    (Except.error e >>= f : Except PyExn β) = Except.error e := rfl

/-- On a payload of `mkBlockActionData` shape the block-action processor
reduces to its destructured core. -/
theorem psu_red (value channel ts : String) (blocks : List PyVal) (st : StoreState) :
    process_submission_update (mkBlockActionData value channel ts blocks) st =
      psuCore (pySplitOnChar ('_') value) channel ts blocks st := by
  unfold process_submission_update psuCore mkBlockActionData
  simp only [pyLookupE, pyIdx, pyGetAttrGet, pyItem, List.lookup, List.get?,
    show (("actions") == ("actions")) = true from rfl,
    show (("message") == ("actions")) = false from rfl,
    show (("message") == ("message")) = true from rfl,
    show (("channel") == ("actions")) = false from rfl,
    show (("channel") == ("message")) = false from rfl,
    show (("channel") == ("channel")) = true from rfl,
    show (("blocks") == ("ts")) = false from rfl,
    show (("blocks") == ("blocks")) = true from rfl,
    show (("id") == ("id")) = true from rfl,
    show (("ts") == ("ts")) = true from rfl,
    show (("value") == ("value")) = true from rfl,
    except_bind_ok, except_bind_err]
  cases h2 : (pySplitOnChar ('_') value).get? 2 with
  | none => simp only [h2, except_bind_err]
  | some t2 =>
    simp only [h2, except_bind_ok]
    cases hn : pyIntParse t2 with
    | none => simp only [hn, except_bind_err]
    | some idn =>
      simp only [hn, except_bind_ok]
      cases hsub : storeGetSubmission st idn with
      | error e => simp only [hsub, except_bind_err]
      | ok submission_obj =>
        simp only [hsub, except_bind_ok]
        by_cases hk : ((pySplitOnChar ('_') value).headD ("") == ("keep")) = true
        · simp only [hk, if_true]
          unfold setLastBlock
          by_cases hbe : blocks.isEmpty
          · simp only [hbe, if_true, except_bind_err]
          · simp only [hbe, Bool.false_eq_true, if_false, except_bind_ok,
              List.singleton_append]
        · simp only [Bool.not_eq_true] at hk
          simp only [hk, Bool.false_eq_true, if_false]
          unfold setLastBlock
          by_cases hbe : blocks.isEmpty
          · simp only [hbe, if_true, except_bind_err]
          · simp only [hbe, Bool.false_eq_true, if_false, except_bind_ok,
              List.singleton_append]

/-- Counterexample to C7: for the action value "remove_x_3_9" the
processor removes the record whose id is the THIRD underscore token (3),
not the last token (9). -/
theorem C7_third_token_counterexample :
    process_submission_update (mkBlockActionData ("remove_x_3_9") ("C") ("T") [keptBlock])
      ⟨[], [⟨3, false, false⟩, ⟨9, false, false⟩]⟩ =
      Except.ok (⟨[], [⟨3, false, false⟩, ⟨9, false, false⟩]⟩,
        [Effect.removePost 3,
         Effect.chatUpdate (PyVal.str ("C")) (PyVal.str ("T")) [removedBlock 3]]) ∧
    (pySplitOnChar ('_') ("remove_x_3_9")).getLast? = some ("9") ∧
    effectRemoveIds [Effect.removePost 3,
      Effect.chatUpdate (PyVal.str ("C")) (PyVal.str ("T")) [removedBlock 3]] = [3] ∧
    (3 : Int) ≠ 9 := by
  exact ⟨rfl, rfl, rfl, by decide⟩

/-- Claim C7 (amended): for a block-action callback whose action value
decodes a record id as its THIRD underscore-delimited token (the last
under the standard three-token format): with verb "keep" the
removed-from-queue flag of the submission is cleared and persisted with
`skip_extras` (no secondary side effects) and the last block becomes the
static kept notice; with any other verb the external removal action is
invoked for that record and the last block becomes the notice naming its
id; both conclude with a `chat_update` at the original channel and
timestamp carrying the mutated block list. -/
theorem C7_submission_update_amended (value channel ts : String) (blocks : List PyVal)
    (st : StoreState) (t2 : String) (n : Int) (sub : Submission)
    (h2 : (pySplitOnChar ('_') value).get? 2 = some t2)
    (hn : pyIntParse t2 = some n)
    (hsub : storeGetSubmission st n = Except.ok sub)
    (hbl : blocks.isEmpty = false) :
    (((pySplitOnChar ('_') value).headD ("") == ("keep")) = true →
      process_submission_update (mkBlockActionData value channel ts blocks) st =
        Except.ok (storeSaveSubmission st { sub with removed_from_queue := false },
          [Effect.saveSubmission sub.id true,
           Effect.chatUpdate (PyVal.str channel) (PyVal.str ts)
             (blocks.set (blocks.length - 1) keptBlock)])) ∧
    (((pySplitOnChar ('_') value).headD ("") == ("keep")) = false →
      process_submission_update (mkBlockActionData value channel ts blocks) st =
        Except.ok (st,
          [Effect.removePost sub.id,
           Effect.chatUpdate (PyVal.str channel) (PyVal.str ts)
             (blocks.set (blocks.length - 1) (removedBlock sub.id))])) := by
  constructor
  · intro hk
    rw [psu_red]
    unfold psuCore setLastBlock
    simp only [h2, hn, hsub, hk, if_true, hbl, Bool.false_eq_true, if_false]
  · intro hk
    rw [psu_red]
    unfold psuCore setLastBlock
    simp only [h2, hn, hsub, hk, Bool.false_eq_true, if_false, hbl]

/-- Witness for C7 (amended): keeping submission 5 clears its
removed-from-queue flag and rewrites the message in place. -/
theorem C7_submission_update_amended_witness :
    process_submission_update (mkBlockActionData ("keep_x_5") ("C") ("T") [keptBlock])
      ⟨[], [⟨5, true, false⟩]⟩ =
      Except.ok (storeSaveSubmission ⟨[], [⟨5, true, false⟩]⟩
          { (⟨5, true, false⟩ : Submission) with removed_from_queue := false },
        [Effect.saveSubmission ((⟨5, true, false⟩ : Submission)).id true,
         Effect.chatUpdate (PyVal.str ("C")) (PyVal.str ("T"))
           ([keptBlock].set ([keptBlock].length - 1) keptBlock)]) :=
  (C7_submission_update_amended ("keep_x_5") ("C") ("T") [keptBlock]
    ⟨[], [⟨5, true, false⟩]⟩ ("5") 5 ⟨5, true, false⟩ rfl rfl rfl rfl).1 rfl

/-- The keyword loop of `process_message` dispatches to the first
registered entry whose keyword is a prefix of the message, with the
unknown-request reply on fall-through. -/
theorem routeLoop_eq_find (opts : List (String × Handler)) (channel : Chan)
    (message : String) (st : StoreState) :
    routeLoop opts channel message st =
      (match opts.find? (fun kv => pyStartsWith message kv.1) with
       | some kv => kv.2 channel message st
       | Option.none =>
         Except.ok (st, [Effect.postMessage channel i18n_unknown_request])) := by
  induction opts with
  | nil => rfl
  | cons kv rest ih =>
    show (if pyStartsWith message kv.1 then kv.2 channel message st
          else routeLoop rest channel message st) = _
    by_cases hk : pyStartsWith message kv.1
    · have hpos : List.find? (fun kv => pyStartsWith message kv.1) (kv :: rest) =
          some kv := by
        simp only [List.find?, hk]
      rw [if_pos hk, hpos]
    · have hneg : List.find? (fun kv => pyStartsWith message kv.1) (kv :: rest) =
          List.find? (fun kv => pyStartsWith message kv.1) rest := by
        simp only [List.find?, (by simpa using hk : pyStartsWith message kv.1 = false)]
      rw [if_neg hk, ih, hneg]

/-- Counterexample to C6: an empty extracted message on a payload with no
actions yields the message-parse-error reply, not the distinct
empty-message reply the claim names. -/
theorem C6_empty_message_counterexample :
    process_message (Except.ok ("j")) [(("event"), PyVal.dict
        [(("text"), PyVal.str ("<@U>")), (("channel"), PyVal.str ("C"))])] ⟨[], []⟩ =
      Except.ok (⟨[], []⟩,
        [Effect.postMessage (some (PyVal.str ("C"))) i18n_message_parse_error]) ∧
    i18n_message_parse_error ≠ i18n_empty_message_error := by
  exact ⟨rfl, by decide⟩

/-- Claim C6 (amended): for non-block-action payloads the router
dispatches to the handler of the first keyword, in registration order
ping, help, reset, info, blacklist, dadjoke, for which the extracted
message starts with that keyword (prefix match); no match yields the
unknown-request reply; an empty extracted message never reaches the
router and yields the message-parse-error reply when the payload carries
no (truthy) actions and the empty-message reply when it does — both
distinct from the unknown-request reply. -/
theorem C6_router_amended (fetched : Except Unit String) (data : PyDict)
    (st : StoreState) (channel : Chan)
    (htype : (data.lookup ("type") == some (PyVal.str ("block_actions"))) = false)
    (hch : eventChannelOf data = Except.ok channel) :
    (slackOptions fetched).map Prod.fst =
      [("ping"), ("help"), ("reset"), ("info"), ("blacklist"), ("dadjoke")] ∧
    (∀ msg, get_message data = Except.ok (some msg) → msg ≠ ("") →
      process_message fetched data st =
        (match (slackOptions fetched).find? (fun kv => pyStartsWith msg kv.1) with
         | some kv => kv.2 channel msg st
         | Option.none =>
           Except.ok (st, [Effect.postMessage channel i18n_unknown_request]))) ∧
    (get_message data = Except.ok (some ("")) →
      (pyFalsy (data.lookup ("actions")) = true →
        process_message fetched data st =
          Except.ok (st, [Effect.postMessage channel i18n_message_parse_error])) ∧
      (pyFalsy (data.lookup ("actions")) = false →
        process_message fetched data st =
          Except.ok (st, [Effect.postMessage channel i18n_empty_message_error]))) ∧
    i18n_message_parse_error ≠ i18n_unknown_request ∧
    i18n_empty_message_error ≠ i18n_unknown_request := by
  refine ⟨rfl, ?_, ?_, by decide, by decide⟩
  · intro msg hm hne
    have hb : (msg == ("")) = false := beq_eq_false_iff_ne.mpr hne
    unfold process_message
    simp only [htype, Bool.false_eq_true, if_false, hch, hm, hb, Bool.false_and,
      Option.getD_some]
    exact routeLoop_eq_find _ _ _ _
  · intro hm
    constructor
    · intro hf
      unfold process_message
      simp only [htype, Bool.false_eq_true, if_false, hch, hm, hf]
      rfl
    · intro hf
      unfold process_message
      simp only [htype, Bool.false_eq_true, if_false, hch, hm, hf]
      rfl

/-- Counterexample to C9: with an empty user store, `blacklist bob`
replies with the raw unknown-username template — which does not carry the
attempted username "bob" — and the legacy `send_info` handler replies
with a different error string entirely. -/
theorem C9_unknown_username_counterexample :
    process_blacklist (some (PyVal.str ("C"))) ("blacklist bob") ⟨[], []⟩ =
      Except.ok (⟨[], []⟩,
        [Effect.postMessage (some (PyVal.str ("C"))) i18n_unknown_username]) ∧
    strContains i18n_unknown_username ("bob") = false ∧
    send_info (some (PyVal.str ("C"))) ("info bob") ⟨[], []⟩ =
      Except.ok (⟨[], []⟩,
        [Effect.postMessage (some (PyVal.str ("C"))) i18n_no_user_by_that_name]) ∧
    i18n_no_user_by_that_name ≠ formatUsernameTmpl i18n_unknown_username ("bob") := by
  exact ⟨rfl, by decide, rfl, by decide⟩

/-- Claim C9 (amended): `info_cmd` and `watchstatus_cmd` resolve the
token case-insensitively with markup sanitized before lookup and, when
unresolved, reply with the unknown-username template carrying the
attempted (sanitized) username; `blacklist` and `reset` also sanitize
and match case-insensitively but their unknown-username reply is the
raw template without the username interpolated; the legacy `send_info`
looks the raw token up without sanitizing and replies with the distinct
no-user-by-that-name error. -/
theorem C9_username_resolution_amended (st : StoreState) (channel : Chan)
    (msg kw tok : String) (hsplit : pySplit msg = [kw, tok]) :
    (parse_user st tok).2 = clean_links tok ∧
    (∀ u, u ∈ st.users → pyLower u.username = pyLower (clean_links tok) →
      (parse_user st tok).1.isSome = true) ∧
    (findUserIexact st.users (clean_links tok) = Option.none →
      info_cmd channel msg st =
        Except.ok (st, [Effect.postMessage channel
          (formatUsernameTmpl i18n_unknown_username (clean_links tok))]) ∧
      watchstatus_cmd channel msg st =
        Except.ok (st, [Effect.postMessage channel
          (formatUsernameTmpl i18n_unknown_username (clean_links tok))]) ∧
      process_blacklist channel msg st =
        Except.ok (st, [Effect.postMessage channel i18n_unknown_username]) ∧
      process_coc_reset channel msg st =
        Except.ok (st, [Effect.postMessage channel i18n_unknown_username])) ∧
    (findUserIexact st.users tok = Option.none →
      send_info channel msg st =
        Except.ok (st, [Effect.postMessage channel i18n_no_user_by_that_name])) := by
  refine ⟨rfl, ?_, ?_, ?_⟩
  · intro u hu he
    unfold parse_user findUserIexact
    dsimp only
    rw [List.find?_isSome]
    exact ⟨u, hu, by rw [he]; exact beq_self_eq_true _⟩
  · intro hn
    refine ⟨?_, ?_, ?_, ?_⟩
    · simp [info_cmd, hsplit, parse_user, hn]
    · simp [watchstatus_cmd, hsplit, parse_user, hn]
    · simp [process_blacklist, hsplit, hn]
    · simp [process_coc_reset, hsplit, hn]
  · intro hn
    simp [send_info, hsplit, hn]

/-- Witness for C9 (amended): an unresolved watchstatus token yields the
formatted unknown-username reply. -/
theorem C9_username_resolution_amended_witness :
    watchstatus_cmd (some (PyVal.str ("C"))) ("watchstatus bob") ⟨[], []⟩ =
      Except.ok ((⟨[], []⟩ : StoreState), [Effect.postMessage (some (PyVal.str ("C")))
        (formatUsernameTmpl i18n_unknown_username (clean_links ("bob")))]) :=
  ((C9_username_resolution_amended ⟨[], []⟩ (some (PyVal.str ("C")))
    ("watchstatus bob") ("watchstatus") ("bob") rfl).2.2.1 rfl).2.1

/-- Witness for C6 (amended): a "ping" message routed through the
dispatcher reaches `pong`. -/
theorem C6_router_amended_witness :
    process_message (Except.ok ("j")) [(("event"), PyVal.dict
        [(("text"), PyVal.str ("<@U> ping")), (("channel"), PyVal.str ("C"))])]
      ⟨[], []⟩ =
      Except.ok (⟨[], []⟩, [Effect.postMessage (some (PyVal.str ("C"))) ("PONG")]) := by
  have h := (C6_router_amended (Except.ok ("j")) [(("event"), PyVal.dict
      [(("text"), PyVal.str ("<@U> ping")), (("channel"), PyVal.str ("C"))])]
    ⟨[], []⟩ (some (PyVal.str ("C"))) rfl rfl).2.1 ("ping") rfl (by decide)
  rw [h]
  rfl
